import Mathlib

/-!
Verification of the marbelle cart/session subsystem.

Shallow embedding of the wired cart endpoints and models:
  - `backend/orders/models.py` (Cart, CartItem pricing properties, CartItem.save)
  - `backend/orders/views/cart.py` (get_or_create_cart, add_to_cart,
    update_cart_item, remove_cart_item, clear_cart, get_cart)
  - `backend/core/services/session.py` (SessionService.get_session_id)
  - `backend/orders/repositories/cart.py` (CartRepository.get_cart_item)
  - `backend/products/models.py` (Product.in_stock) and
    `backend/products/repositories/product.py` (ProductRepository.get_by_id)

Monetary values are exact decimals with two fractional digits in the source
(`DecimalField(decimal_places=2)`); they are embedded as integer cents, which
represents them exactly.  `Decimal.quantize` with the default context rounds
half-to-even; `roundHalfEven` below embeds that rounding.
-/

namespace Marbelle

/-- Round `n / k` to the nearest integer, ties to the even neighbour.
Embeds Python `Decimal.quantize` under the default context
(`ROUND_HALF_EVEN`), applied in `Cart.tax_amount`. -/
def roundHalfEven (n k : ℕ) : ℕ :=
  let q := n / k
  let r := n % k
  if 2 * r < k then q
  else if k < 2 * r then q + 1
  else if q % 2 = 0 then q else q + 1

/-- Modelled from the claim's words only (not from the source): round `n / k`
to the nearest integer with ties upward ("half-up"), used solely to compare
the claimed rounding mode against the code's `quantize`. -/
def roundHalfUpClaim (n k : ℕ) : ℕ :=
  (2 * n + k) / (2 * k)

/-- `products.models.Product`: the fields the cart subsystem reads.
`price` is in cents; the model declares `MinValueValidator(Decimal("0.01"))`
on `price`, i.e. the catalog domain is `1 ≤ price` in cents. -/
structure Product where
  id : ℕ
  name : String
  price : ℕ
  stock_quantity : ℕ
  is_active : Bool
  deriving DecidableEq, Repr

/-- `Product.in_stock` property: `stock_quantity > 0`. -/
def Product.in_stock (p : Product) : Bool :=
  decide (0 < p.stock_quantity)

/-- `orders.models.Cart`: identity fields. Exactly the source's
`user` (nullable one-to-one) and `session_key` (nullable char). -/
structure Cart where
  id : ℕ
  user : Option ℕ
  session_key : Option String
  deriving DecidableEq, Repr

/-- `orders.models.CartItem`: a cart line. `unit_price` in cents, frozen at
add time; `created_at` is a logical timestamp used for ordering. -/
structure CartItem where
  id : ℕ
  cartId : ℕ
  productId : ℕ
  quantity : ℕ
  unit_price : ℕ
  created_at : ℕ
  deriving DecidableEq, Repr

/-- `CartItem.save` override: `if not self.unit_price: self.unit_price =
self.product.price`.  The only falsy `Decimal` is zero, so the embedding
re-copies the product price exactly when the stored unit price is 0. -/
def CartItem.savePrice (it : CartItem) (productPrice : ℕ) : CartItem :=
  if it.unit_price = 0 then { it with unit_price := productPrice } else it

/-- The database state the cart endpoints read and write. -/
structure Store where
  products : List Product
  carts : List Cart
  items : List CartItem
  nextCartId : ℕ
  nextItemId : ℕ
  clock : ℕ
  deriving DecidableEq, Repr

/-- One inbound HTTP request, reduced to what the session resolver reads:
auth state, the `X-Session-ID` header, the cookie session key, and the key
the session store would allocate if `session.create()` were called. -/
structure Request where
  is_authenticated : Bool
  user_id : ℕ
  header_session : Option String
  cookie_key : Option String
  fresh_key : String
  deriving DecidableEq, Repr

/-- Cookie branch of the resolver: use the existing cookie session key if it
is truthy, otherwise `session.create()` / forced `session.save()` allocates a
fresh one. -/
def cookieSessionKey (r : Request) : String :=
  match r.cookie_key with
  | some k => if k = "" then r.fresh_key else k
  | none => r.fresh_key

/-- Guest branch of `SessionService.get_session_id` /
`get_or_create_cart` in `views/cart.py`: the `X-Session-ID` header wins when
truthy (Python `if not session_key` treats the empty string like absence),
else fall back to the cookie session. -/
def resolveGuestKey (r : Request) : String :=
  match r.header_session with
  | some t => if t = "" then cookieSessionKey r else t
  | none => cookieSessionKey r

/-- `SessionService.get_session_id`: `None` for authenticated callers,
otherwise the resolved guest key. -/
def getSessionId (r : Request) : Option String :=
  if r.is_authenticated then none else some (resolveGuestKey r)

/-- Result of cart resolution: possibly-updated store, the resolved cart,
and the session key to echo (`None` for authenticated callers). -/
structure Resolved where
  store : Store
  cart : Cart
  echo : Option String
  deriving DecidableEq, Repr

/-- `get_or_create_cart(request)` from `views/cart.py`.
Authenticated: `Cart.objects.get_or_create(user=request.user,
defaults={"session_key": None})`.  Guest: resolve the session key, then
`Cart.objects.get_or_create(session_key=session_key, user=None)`. -/
def getOrCreateCart (s : Store) (r : Request) : Resolved :=
  if r.is_authenticated then
    match s.carts.find? (fun c => decide (c.user = some r.user_id)) with
    | some c => ⟨s, c, none⟩
    | none =>
      ⟨{ s with
         carts := s.carts ++ [⟨s.nextCartId, some r.user_id, none⟩],
         nextCartId := s.nextCartId + 1 },
       ⟨s.nextCartId, some r.user_id, none⟩, none⟩
  else
    match s.carts.find?
        (fun c => decide (c.session_key = some (resolveGuestKey r) ∧ c.user = none)) with
    | some c => ⟨s, c, some (resolveGuestKey r)⟩
    | none =>
      ⟨{ s with
         carts := s.carts ++ [⟨s.nextCartId, none, some (resolveGuestKey r)⟩],
         nextCartId := s.nextCartId + 1 },
       ⟨s.nextCartId, none, some (resolveGuestKey r)⟩, some (resolveGuestKey r)⟩

/-- Responses as the endpoints build them: `ResponseHandler.success`
(message plus the `X-Session-ID` echo header, set exactly when the resolved
session key is not `None`) or `ResponseHandler.error` (message, status;
default status 400). -/
inductive Response where
  | ok (message : String) (echo : Option String) : Response
  | err (message : String) (status : ℕ) : Response
  deriving DecidableEq, Repr

/-- The raw `quantity` field of a request body: an integer (Python `int()`
succeeds) or a value `int()` rejects. -/
inductive RawQty where
  | intVal (q : ℤ) : RawQty
  | malformed : RawQty
  deriving DecidableEq, Repr

/-- A mutation endpoint's outcome: the store afterwards and the response. -/
structure Step where
  store : Store
  resp : Response
  deriving DecidableEq, Repr

/-- `add_to_cart` view (`views/cart.py`): validation order, product lookup
with `is_active=True`, stock checks, cart resolution, then
`CartItem.objects.get_or_create` keyed on `(cart, product)` with merge on the
existing row. -/
def addToCart (s : Store) (r : Request) (productId : Option ℕ) (rawQty : RawQty) : Step :=
  match productId with
  | none => ⟨s, .err "Product ID is required." 400⟩
  | some pid =>
    match rawQty with
    | .malformed => ⟨s, .err "Invalid quantity value." 400⟩
    | .intVal q =>
      if q < 1 ∨ 99 < q then ⟨s, .err "Quantity must be between 1 and 99." 400⟩
      else
        match s.products.find? (fun p => decide (p.id = pid ∧ p.is_active = true)) with
        | none => ⟨s, .err "Product not found." 404⟩
        | some product =>
          if product.in_stock = false then ⟨s, .err "Product is out of stock." 400⟩
          else if (product.stock_quantity : ℤ) < q then
            ⟨s, .err ("Only " ++ toString product.stock_quantity ++ " items available in stock.") 400⟩
          else
            let res := getOrCreateCart s r
            match res.store.items.find?
                (fun it => decide (it.cartId = res.cart.id ∧ it.productId = product.id)) with
            | some item =>
              let newQ := item.quantity + q.toNat
              if 99 < newQ then ⟨res.store, .err "Maximum quantity per product is 99." 400⟩
              else if product.stock_quantity < newQ then
                ⟨res.store,
                 .err ("Only " ++ toString product.stock_quantity ++ " items available in stock.") 400⟩
              else
                let updated := CartItem.savePrice { item with quantity := newQ } product.price
                ⟨{ res.store with
                    items := res.store.items.map (fun it => if it.id = item.id then updated else it) },
                 .ok ("Added " ++ toString q.toNat ++ " x " ++ product.name ++ " to cart.") res.echo⟩
            | none =>
              let created := CartItem.savePrice
                ⟨res.store.nextItemId, res.cart.id, product.id, q.toNat, product.price,
                 res.store.clock⟩ product.price
              ⟨{ res.store with
                  items := res.store.items ++ [created],
                  nextItemId := res.store.nextItemId + 1,
                  clock := res.store.clock + 1 },
               .ok ("Added " ++ toString q.toNat ++ " x " ++ product.name ++ " to cart.") res.echo⟩

/-- `update_cart_item` view (`views/cart.py`): quantity validation, cart
resolution, `CartItem.objects.get(id=item_id, cart=cart)`, the single stock
comparison against the item's product, then direct quantity assignment. -/
def updateCartItem (s : Store) (r : Request) (itemId : ℕ) (rawQty : Option RawQty) : Step :=
  match rawQty with
  | none => ⟨s, .err "Quantity is required." 400⟩
  | some .malformed => ⟨s, .err "Invalid quantity value." 400⟩
  | some (.intVal q) =>
    if q < 1 ∨ 99 < q then ⟨s, .err "Quantity must be between 1 and 99." 400⟩
    else
      let res := getOrCreateCart s r
      match res.store.items.find? (fun it => decide (it.id = itemId ∧ it.cartId = res.cart.id)) with
      | none => ⟨res.store, .err "Cart item not found." 404⟩
      | some item =>
        match res.store.products.find? (fun p => decide (p.id = item.productId)) with
        | none => ⟨res.store, .err "Error updating cart item." 500⟩
        | some product =>
          if (product.stock_quantity : ℤ) < q then
            ⟨res.store,
             .err ("Only " ++ toString product.stock_quantity ++ " items available in stock.") 400⟩
          else
            let updated := CartItem.savePrice { item with quantity := q.toNat } product.price
            ⟨{ res.store with
                items := res.store.items.map (fun it => if it.id = item.id then updated else it) },
             .ok "Cart item updated successfully." res.echo⟩

/-- `remove_cart_item` view (`views/cart.py`): cart resolution, ownership-
checked lookup, delete by primary key, success message with the product
name. -/
def removeCartItem (s : Store) (r : Request) (itemId : ℕ) : Step :=
  let res := getOrCreateCart s r
  match res.store.items.find? (fun it => decide (it.id = itemId ∧ it.cartId = res.cart.id)) with
  | none => ⟨res.store, .err "Cart item not found." 404⟩
  | some item =>
    match res.store.products.find? (fun p => decide (p.id = item.productId)) with
    | none => ⟨res.store, .err "Error removing cart item." 500⟩
    | some product =>
      ⟨{ res.store with items := res.store.items.filter (fun it => decide (it.id ≠ item.id)) },
       .ok ("Removed " ++ product.name ++ " from cart.") res.echo⟩

/-- `clear_cart` view (`views/cart.py`): cart resolution, then
`cart.items.all().delete()`. -/
def clearCart (s : Store) (r : Request) : Step :=
  let res := getOrCreateCart s r
  ⟨{ res.store with items := res.store.items.filter (fun it => decide (it.cartId ≠ res.cart.id)) },
   .ok "Cart cleared successfully." res.echo⟩

/-- `get_cart` view (`views/cart.py`), reduced to resolution and the echo
header; the cart body is derived on read from the pricing functions below. -/
def getCart (s : Store) (r : Request) : Step :=
  let res := getOrCreateCart s r
  ⟨res.store, .ok "Cart retrieved successfully." res.echo⟩

/-- `CartRepository.get_cart_item`: `CartItem.objects.get(id=item_id,
cart=cart)`, `None` when absent or owned by another cart. -/
def getCartItem (s : Store) (itemId cartId : ℕ) : Option CartItem :=
  s.items.find? (fun it => decide (it.id = itemId ∧ it.cartId = cartId))

/-- `cart.items.all()`: the lines of one cart. -/
def cartItems (s : Store) (cartId : ℕ) : List CartItem :=
  s.items.filter (fun it => decide (it.cartId = cartId))

/-- `CartItem.subtotal` property: `quantity * unit_price` (exact, cents). -/
def CartItem.subtotal (it : CartItem) : ℕ :=
  it.quantity * it.unit_price

/-- `Cart.item_count` property: sum of the quantities. -/
def itemCount (s : Store) (cartId : ℕ) : ℕ :=
  ((cartItems s cartId).map CartItem.quantity).sum

/-- `Cart.subtotal` property: sum of the line subtotals, kept exact (no
intermediate quantization). -/
def cartSubtotal (s : Store) (cartId : ℕ) : ℕ :=
  ((cartItems s cartId).map CartItem.subtotal).sum

/-- `Cart.tax_amount` property: `(subtotal * Decimal("0.09")).quantize(
Decimal("0.01"))`.  With subtotal `s` cents the exact product is `9*s/100`
cents, quantized by the default-context half-even rounding. -/
def taxAmount (s : Store) (cartId : ℕ) : ℕ :=
  roundHalfEven (cartSubtotal s cartId * 9) 100

/-- `Cart.total` property: `subtotal + tax_amount`. -/
def cartTotal (s : Store) (cartId : ℕ) : ℕ :=
  cartSubtotal s cartId + taxAmount s cartId

/-- A catalog price change for product `pid` (an external write to
`Product.price`); touches nothing but the product row. -/
def setProductPrice (s : Store) (pid newPrice : ℕ) : Store :=
  { s with products := s.products.map (fun p => if p.id = pid then { p with price := newPrice } else p) }

/-- `CartItem.objects.filter(cart=..., product=...)`: the rows for one
(cart, product) pair. -/
def itemsFor (s : Store) (cartId productId : ℕ) : List CartItem :=
  s.items.filter (fun it => decide (it.cartId = cartId ∧ it.productId = productId))

/-- Relational well-formedness the schema guarantees: primary keys are
unique and below the allocators, `unique_together (cart, product)` on cart
items, and unique product ids. -/
structure Store.WF (s : Store) : Prop where
  itemIdsBound : ∀ it ∈ s.items, it.id < s.nextItemId
  itemKeys : s.items.Pairwise (fun a b => a.cartId ≠ b.cartId ∨ a.productId ≠ b.productId)
  cartIdsBound : ∀ c ∈ s.carts, c.id < s.nextCartId
  productIdsNodup : (s.products.map Product.id).Nodup

/-- Cart identity: exactly one of user / guest session key is set. -/
def cartsIdentOk (cs : List Cart) : Prop :=
  ∀ c ∈ cs, (c.user ≠ none ∧ c.session_key = none) ∨ (c.user = none ∧ c.session_key ≠ none)

/-- At most one cart per owning user (`OneToOneField user`). -/
def cartsUserUnique (cs : List Cart) : Prop :=
  cs.Pairwise (fun a b => ∀ u : ℕ, a.user = some u → b.user ≠ some u)

/-- At most one ownerless cart per session key (`unique_session_cart`). -/
def cartsGuestUnique (cs : List Cart) : Prop :=
  cs.Pairwise (fun a b => a.user = none → b.user = none → a.session_key ≠ b.session_key)

/-- The cart identity invariant of claim C6. -/
def cartsInv (cs : List Cart) : Prop :=
  cartsIdentOk cs ∧ cartsUserUnique cs ∧ cartsGuestUnique cs

section Helpers

variable {α : Type}

lemma find?_eq_some_of_unique {l : List α} {pred : α → Bool} {a : α}
    (ha : a ∈ l) (hpa : pred a = true)
    (huniq : ∀ b ∈ l, pred b = true → b = a) : l.find? pred = some a := by
  induction l with
  | nil => cases ha
  | cons x t ih =>
    by_cases hx : pred x = true
    · have hxa : x = a := huniq x (List.mem_cons_self x t) hx
      rw [List.find?_cons_of_pos _ hx, hxa]
    · have hat : a ∈ t := by
        rcases List.mem_cons.mp ha with h | h
        · exact absurd (h ▸ hpa) hx
        · exact h
      rw [List.find?_cons_of_neg _ hx]
      exact ih hat (fun b hb hpb => huniq b (List.mem_cons_of_mem x hb) hpb)

lemma savePrice_mk (i cid pid q pp t : ℕ) :
    CartItem.savePrice ⟨i, cid, pid, q, pp, t⟩ pp = ⟨i, cid, pid, q, pp, t⟩ := by
  unfold CartItem.savePrice
  split <;> rfl

/-- Resolving a second time on the store produced by a first resolution is a
pure lookup returning the same cart and echo. -/
lemma getOrCreateCart_stable (s : Store) (r : Request) :
    getOrCreateCart (getOrCreateCart s r).store r = getOrCreateCart s r := by
  by_cases ha : r.is_authenticated = true
  · cases hf : s.carts.find? (fun c => decide (c.user = some r.user_id)) with
    | some c =>
      have h1 : getOrCreateCart s r = ⟨s, c, none⟩ := by
        unfold getOrCreateCart; rw [if_pos ha, hf]
      rw [h1]
      exact h1
    | none =>
      have h1 : getOrCreateCart s r =
          ⟨{ s with
             carts := s.carts ++ [⟨s.nextCartId, some r.user_id, none⟩],
             nextCartId := s.nextCartId + 1 },
           ⟨s.nextCartId, some r.user_id, none⟩, none⟩ := by
        unfold getOrCreateCart; rw [if_pos ha, hf]
      rw [h1]
      have h2 : List.find? (fun c => decide (c.user = some r.user_id))
          ([⟨s.nextCartId, some r.user_id, none⟩] : List Cart) =
          some ⟨s.nextCartId, some r.user_id, none⟩ := by
        simp [List.find?]
      unfold getOrCreateCart
      rw [if_pos ha]
      show (match (s.carts ++ [_]).find? _ with
        | some c => _ | none => _) = _
      rw [List.find?_append, hf, h2]
      rfl
  · cases hf : s.carts.find?
        (fun c => decide (c.session_key = some (resolveGuestKey r) ∧ c.user = none)) with
    | some c =>
      have h1 : getOrCreateCart s r = ⟨s, c, some (resolveGuestKey r)⟩ := by
        unfold getOrCreateCart; rw [if_neg ha, hf]
      rw [h1]
      exact h1
    | none =>
      have h1 : getOrCreateCart s r =
          ⟨{ s with
             carts := s.carts ++ [⟨s.nextCartId, none, some (resolveGuestKey r)⟩],
             nextCartId := s.nextCartId + 1 },
           ⟨s.nextCartId, none, some (resolveGuestKey r)⟩, some (resolveGuestKey r)⟩ := by
        unfold getOrCreateCart; rw [if_neg ha, hf]
      rw [h1]
      have h2 : List.find?
          (fun c => decide (c.session_key = some (resolveGuestKey r) ∧ c.user = none))
          ([⟨s.nextCartId, none, some (resolveGuestKey r)⟩] : List Cart) =
          some ⟨s.nextCartId, none, some (resolveGuestKey r)⟩ := by
        simp [List.find?]
      unfold getOrCreateCart
      rw [if_neg ha]
      show (match (s.carts ++ [_]).find? _ with
        | some c => _ | none => _) = _
      rw [List.find?_append, hf, h2]
      rfl

/-- A found (store-preserving) resolution transfers to any store with the
same cart table. -/
lemma getOrCreateCart_congr {s s' : Store} {r : Request} {c : Cart} {sk : Option String}
    (hc : s'.carts = s.carts) (h : getOrCreateCart s r = ⟨s, c, sk⟩) :
    getOrCreateCart s' r = ⟨s', c, sk⟩ := by
  unfold getOrCreateCart at h ⊢
  by_cases ha : r.is_authenticated = true
  · rw [if_pos ha] at h ⊢
    cases hf : s.carts.find? (fun c => decide (c.user = some r.user_id)) with
    | some c0 =>
      rw [hf] at h
      injection h with h1 h2 h3
      rw [hc, hf, h2, h3]
    | none =>
      rw [hf] at h
      have hx : s.nextCartId + 1 = s.nextCartId :=
        congrArg Store.nextCartId (congrArg Resolved.store h)
      omega
  · rw [if_neg ha] at h ⊢
    cases hf : s.carts.find?
        (fun c => decide (c.session_key = some (resolveGuestKey r) ∧ c.user = none)) with
    | some c0 =>
      rw [hf] at h
      injection h with h1 h2 h3
      rw [hc, hf, h2, h3]
    | none =>
      rw [hf] at h
      have hx : s.nextCartId + 1 = s.nextCartId :=
        congrArg Store.nextCartId (congrArg Resolved.store h)
      omega

end Helpers


/-- The header wins whenever it carries a non-empty (truthy) value. -/
lemma resolveGuestKey_of_header {r : Request} {t : String}
    (ht : r.header_session = some t) (hne : t ≠ "") : resolveGuestKey r = t := by
  unfold resolveGuestKey
  rw [ht]
  exact if_neg hne

/-- An authenticated resolution returns the user's cart and no echo token. -/
lemma getOrCreateCart_auth (s : Store) (r : Request) (ha : r.is_authenticated = true) :
    (getOrCreateCart s r).cart.user = some r.user_id ∧ (getOrCreateCart s r).echo = none := by
  unfold getOrCreateCart
  rw [if_pos ha]
  cases hf : s.carts.find? (fun c => decide (c.user = some r.user_id)) with
  | some c =>
    have hc := List.find?_some hf
    simp only [decide_eq_true_eq] at hc
    exact ⟨hc, rfl⟩
  | none => exact ⟨rfl, rfl⟩

/-- A guest resolution always echoes the resolved session key. -/
lemma getOrCreateCart_guest_echo (s : Store) (r : Request) (ha : r.is_authenticated = false) :
    (getOrCreateCart s r).echo = some (resolveGuestKey r) := by
  unfold getOrCreateCart
  rw [if_neg (by rw [ha]; simp)]
  cases hf : s.carts.find?
      (fun c => decide (c.session_key = some (resolveGuestKey r) ∧ c.user = none)) with
  | some c => rfl
  | none => rfl

/-! ## Claim C3 — tax arithmetic -/

/-- C3, counterexample: the claim says `tax_amount` rounds half-up, but
`Decimal.quantize` under Python's default context rounds half-to-even.  For
a cart holding one item of quantity 1 at unit price 0.50, the subtotal is
0.50, the exact tax is 0.045, the code yields 0.04 while half-up rounding
yields 0.05. -/
theorem tax_half_up_refuted :
    taxAmount ⟨[], [⟨0, none, some "t"⟩], [⟨0, 0, 3, 1, 50, 0⟩], 1, 1, 1⟩ 0 = 4 ∧
    roundHalfUpClaim
      (cartSubtotal ⟨[], [⟨0, none, some "t"⟩], [⟨0, 0, 3, 1, 50, 0⟩], 1, 1, 1⟩ 0 * 9) 100 = 5 ∧
    taxAmount ⟨[], [⟨0, none, some "t"⟩], [⟨0, 0, 3, 1, 50, 0⟩], 1, 1, 1⟩ 0 ≠
      roundHalfUpClaim
        (cartSubtotal ⟨[], [⟨0, none, some "t"⟩], [⟨0, 0, 3, 1, 50, 0⟩], 1, 1, 1⟩ 0 * 9) 100 := by
  decide

/-- C3 (amended): tax is the subtotal times the fixed rate 0.09, quantized
once to cents with half-to-EVEN rounding, over exact (integer-cent) decimal
arithmetic with no intermediate quantization of the subtotal; for items
[(2, 29.99), (1, 49.99)] the subtotal is 109.97, the tax 9.90, the total
119.87 and the item count 3; at the tie 0.50 * 0.09 = 0.045 the even
neighbour 0.04 is chosen. -/
theorem tax_arithmetic :
    cartSubtotal ⟨[], [⟨0, none, some "t"⟩],
      [⟨0, 0, 1, 2, 2999, 0⟩, ⟨1, 0, 2, 1, 4999, 1⟩], 1, 2, 2⟩ 0 = 10997 ∧
    taxAmount ⟨[], [⟨0, none, some "t"⟩],
      [⟨0, 0, 1, 2, 2999, 0⟩, ⟨1, 0, 2, 1, 4999, 1⟩], 1, 2, 2⟩ 0 = 990 ∧
    cartTotal ⟨[], [⟨0, none, some "t"⟩],
      [⟨0, 0, 1, 2, 2999, 0⟩, ⟨1, 0, 2, 1, 4999, 1⟩], 1, 2, 2⟩ 0 = 11987 ∧
    itemCount ⟨[], [⟨0, none, some "t"⟩],
      [⟨0, 0, 1, 2, 2999, 0⟩, ⟨1, 0, 2, 1, 4999, 1⟩], 1, 2, 2⟩ 0 = 3 ∧
    taxAmount ⟨[], [⟨0, none, some "t"⟩], [⟨0, 0, 3, 1, 50, 0⟩], 1, 1, 1⟩ 0 = 4 := by
  decide

/-! ## Claim C10 — client-chosen guest tokens are adopted verbatim -/

/-- C10: an unauthenticated request carrying any non-empty header token `t`
resolves to `t` exactly as supplied — independently of whether any cart or
session for `t` exists in the store — and `get_or_create_cart` lazily
creates a guest cart keyed by `t` when none exists; resolving again on the
resulting store returns that same cart, so the invented token is a
persistent cart identity. -/
theorem client_token_adopted (s : Store) (r : Request) (t : String)
    (ha : r.is_authenticated = false)
    (ht : r.header_session = some t) (hne : t ≠ "")
    (hno : ∀ c ∈ s.carts, ¬(c.session_key = some t ∧ c.user = none)) :
    resolveGuestKey r = t ∧
    getSessionId r = some t ∧
    getOrCreateCart s r =
      ⟨{ s with
         carts := s.carts ++ [⟨s.nextCartId, none, some t⟩],
         nextCartId := s.nextCartId + 1 },
       ⟨s.nextCartId, none, some t⟩, some t⟩ ∧
    getOrCreateCart (getOrCreateCart s r).store r = getOrCreateCart s r := by
  have hkey : resolveGuestKey r = t := by
    unfold resolveGuestKey
    rw [ht]
    exact if_neg hne
  have hfind : s.carts.find?
      (fun c => decide (c.session_key = some (resolveGuestKey r) ∧ c.user = none)) = none := by
    rw [List.find?_eq_none]
    intro c hc
    rw [hkey]
    simpa using hno c hc
  refine ⟨hkey, ?_, ?_, getOrCreateCart_stable s r⟩
  · unfold getSessionId
    rw [ha, hkey]
    rfl
  · unfold getOrCreateCart
    rw [if_neg (by rw [ha]; simp), hfind, hkey]

/-- C10, witness: a fresh client-invented token "abc" on an empty store. -/
theorem client_token_adopted_witness :
    resolveGuestKey ⟨false, 0, some "abc", none, "f"⟩ = "abc" ∧
    getSessionId ⟨false, 0, some "abc", none, "f"⟩ = some "abc" ∧
    getOrCreateCart ⟨[], [], [], 0, 0, 0⟩ ⟨false, 0, some "abc", none, "f"⟩ =
      ⟨⟨[], [⟨0, none, some "abc"⟩], [], 1, 0, 0⟩, ⟨0, none, some "abc"⟩, some "abc"⟩ ∧
    getOrCreateCart
        (getOrCreateCart ⟨[], [], [], 0, 0, 0⟩ ⟨false, 0, some "abc", none, "f"⟩).store
        ⟨false, 0, some "abc", none, "f"⟩ =
      getOrCreateCart ⟨[], [], [], 0, 0, 0⟩ ⟨false, 0, some "abc", none, "f"⟩ :=
  client_token_adopted ⟨[], [], [], 0, 0, 0⟩ ⟨false, 0, some "abc", none, "f"⟩ "abc"
    rfl rfl (by decide) (by decide)


/-! ## Claim C4 — cross-cart isolation of item ids -/

/-- C4: for a resolved cart, an item id that either does not exist at all or
exists only in a different cart makes the repository lookup return nothing
and makes both the update and the remove endpoints fail with the identical
"Cart item not found." 404 response, leaving the store unchanged — the
response never distinguishes the two situations. -/
theorem cart_item_not_found_isolation (s : Store) (r : Request) (c : Cart)
    (sk : Option String) (itemId : ℕ) (q : ℤ)
    (hres : getOrCreateCart s r = ⟨s, c, sk⟩)
    (hq1 : 1 ≤ q) (hq99 : q ≤ 99)
    (hno : ∀ it ∈ s.items, it.id = itemId → it.cartId ≠ c.id) :
    getCartItem s itemId c.id = none ∧
    updateCartItem s r itemId (some (.intVal q)) = ⟨s, .err "Cart item not found." 404⟩ ∧
    removeCartItem s r itemId = ⟨s, .err "Cart item not found." 404⟩ := by
  have hfind : s.items.find? (fun it => decide (it.id = itemId ∧ it.cartId = c.id)) = none := by
    rw [List.find?_eq_none]
    intro it hit
    simp only [decide_eq_true_eq, not_and]
    exact hno it hit
  refine ⟨hfind, ?_, ?_⟩
  · show (if q < 1 ∨ 99 < q then _ else _) = _
    rw [if_neg (by omega)]
    simp only [hres, hfind]
  · show (match (getOrCreateCart s r).store.items.find? _ with
      | none => _ | some item => _) = _
    simp only [hres, hfind]

/-- C4, witness: item id 7 exists only in cart 1, the resolved cart is
cart 0 of guest "tok"; all three accesses report not-found. -/
theorem cart_item_not_found_isolation_witness :
    getCartItem ⟨[], [⟨0, none, some "tok"⟩, ⟨1, none, some "other"⟩],
      [⟨7, 1, 3, 1, 100, 0⟩], 2, 8, 1⟩ 7 0 = none ∧
    updateCartItem ⟨[], [⟨0, none, some "tok"⟩, ⟨1, none, some "other"⟩],
        [⟨7, 1, 3, 1, 100, 0⟩], 2, 8, 1⟩ ⟨false, 0, some "tok", none, "f"⟩ 7
        (some (.intVal 2)) =
      ⟨⟨[], [⟨0, none, some "tok"⟩, ⟨1, none, some "other"⟩],
        [⟨7, 1, 3, 1, 100, 0⟩], 2, 8, 1⟩, .err "Cart item not found." 404⟩ ∧
    removeCartItem ⟨[], [⟨0, none, some "tok"⟩, ⟨1, none, some "other"⟩],
        [⟨7, 1, 3, 1, 100, 0⟩], 2, 8, 1⟩ ⟨false, 0, some "tok", none, "f"⟩ 7 =
      ⟨⟨[], [⟨0, none, some "tok"⟩, ⟨1, none, some "other"⟩],
        [⟨7, 1, 3, 1, 100, 0⟩], 2, 8, 1⟩, .err "Cart item not found." 404⟩ :=
  cart_item_not_found_isolation
    ⟨[], [⟨0, none, some "tok"⟩, ⟨1, none, some "other"⟩], [⟨7, 1, 3, 1, 100, 0⟩], 2, 8, 1⟩
    ⟨false, 0, some "tok", none, "f"⟩ ⟨0, none, some "tok"⟩ (some "tok") 7 2
    (by decide) (by decide) (by decide) (by decide)

/-! ## Claim C5 — guest identity resolution -/

/-- C5, counterexample: the claim says a present X-Session-ID header is the
resolved identity, but a present-and-empty header is falsy in Python, so the
resolver falls back to the cookie session: with header "" and cookie
"cookie" the resolved identity is "cookie", not the header value. -/
theorem header_precedence_refuted :
    (⟨false, 0, some "", some "cookie", "f"⟩ : Request).header_session = some "" ∧
    resolveGuestKey ⟨false, 0, some "", some "cookie", "f"⟩ = "cookie" ∧
    resolveGuestKey ⟨false, 0, some "", some "cookie", "f"⟩ ≠ "" := by
  decide

/-- C5 (amended): for an unauthenticated request whose X-Session-ID header
carries a NON-EMPTY value t, t is the resolved identity and the cookie
session is ignored; a second request on the resulting store with the same
header-only token resolves to the very same cart; the resolved token is
echoed in the same-named response header; for an authenticated request the
resolver yields none, the cart is the user's own, and no guest token is
echoed. -/
theorem guest_identity_resolution (s : Store) (r : Request) (t : String)
    (ha : r.is_authenticated = false)
    (ht : r.header_session = some t) (hne : t ≠ "") :
    resolveGuestKey r = t ∧
    getSessionId r = some t ∧
    (getCart s r).resp = .ok "Cart retrieved successfully." (some t) ∧
    getOrCreateCart ((getCart s r).store) r = getOrCreateCart s r ∧
    (∀ r' : Request, r'.is_authenticated = true →
      getSessionId r' = none ∧
      (getOrCreateCart s r').cart.user = some r'.user_id ∧
      (getCart s r').resp = .ok "Cart retrieved successfully." none) := by
  have hkey : resolveGuestKey r = t := resolveGuestKey_of_header ht hne
  refine ⟨hkey, ?_, ?_, ?_, ?_⟩
  · unfold getSessionId
    rw [ha, hkey]
    rfl
  · show Response.ok "Cart retrieved successfully." (getOrCreateCart s r).echo = _
    rw [getOrCreateCart_guest_echo s r ha, hkey]
  · exact getOrCreateCart_stable s r
  · intro r' ha'
    refine ⟨?_, (getOrCreateCart_auth s r' ha').1, ?_⟩
    · unfold getSessionId
      rw [if_pos ha']
    · show Response.ok "Cart retrieved successfully." (getOrCreateCart s r').echo = _
      rw [(getOrCreateCart_auth s r' ha').2]

/-- C5, witness: token "tok" with a cookie also present; the header wins. -/
theorem guest_identity_resolution_witness :
    resolveGuestKey ⟨false, 0, some "tok", some "cookie", "f"⟩ = "tok" ∧
    getSessionId ⟨false, 0, some "tok", some "cookie", "f"⟩ = some "tok" ∧
    (getCart ⟨[], [], [], 0, 0, 0⟩ ⟨false, 0, some "tok", some "cookie", "f"⟩).resp =
      .ok "Cart retrieved successfully." (some "tok") ∧
    getOrCreateCart
        ((getCart ⟨[], [], [], 0, 0, 0⟩ ⟨false, 0, some "tok", some "cookie", "f"⟩).store)
        ⟨false, 0, some "tok", some "cookie", "f"⟩ =
      getOrCreateCart ⟨[], [], [], 0, 0, 0⟩ ⟨false, 0, some "tok", some "cookie", "f"⟩ ∧
    (∀ r' : Request, r'.is_authenticated = true →
      getSessionId r' = none ∧
      (getOrCreateCart ⟨[], [], [], 0, 0, 0⟩ r').cart.user = some r'.user_id ∧
      (getCart ⟨[], [], [], 0, 0, 0⟩ r').resp = .ok "Cart retrieved successfully." none) :=
  guest_identity_resolution ⟨[], [], [], 0, 0, 0⟩ ⟨false, 0, some "tok", some "cookie", "f"⟩
    "tok" rfl rfl (by decide)

/-! ## Claim C9 — active-product precondition on add -/

/-- C9: an add request whose product id matches no product, or only an
inactive product, fails with "Product not found." (404) and leaves the store
— in particular every cart and cart item — untouched, so an inactive product
can never be added to a cart.  (Quantity validation precedes the product
lookup in the view, so the request's quantity is assumed well-formed.) -/
theorem active_product_precondition (s : Store) (r : Request) (pid : ℕ) (q : ℕ)
    (hq1 : 1 ≤ q) (hq99 : q ≤ 99)
    (hprod : ∀ p ∈ s.products, ¬(p.id = pid ∧ p.is_active = true)) :
    addToCart s r (some pid) (.intVal q) = ⟨s, .err "Product not found." 404⟩ := by
  have hfind : s.products.find? (fun p => decide (p.id = pid ∧ p.is_active = true)) = none := by
    rw [List.find?_eq_none]
    intro p hp
    simpa using hprod p hp
  show (if (q : ℤ) < 1 ∨ 99 < (q : ℤ) then _ else _) = _
  rw [if_neg (by omega)]
  simp only [hfind]

/-- C9, witness: product 5 exists but `is_active` is false; product 6 does
not exist; both add attempts 404 with no state change. -/
theorem active_product_precondition_witness :
    addToCart ⟨[⟨5, "Retired", 1000, 10, false⟩], [], [], 0, 0, 0⟩
        ⟨false, 0, some "tok", none, "f"⟩ (some 5) (.intVal 2) =
      ⟨⟨[⟨5, "Retired", 1000, 10, false⟩], [], [], 0, 0, 0⟩, .err "Product not found." 404⟩ ∧
    addToCart ⟨[⟨5, "Retired", 1000, 10, false⟩], [], [], 0, 0, 0⟩
        ⟨false, 0, some "tok", none, "f"⟩ (some 6) (.intVal 2) =
      ⟨⟨[⟨5, "Retired", 1000, 10, false⟩], [], [], 0, 0, 0⟩, .err "Product not found." 404⟩ :=
  ⟨active_product_precondition ⟨[⟨5, "Retired", 1000, 10, false⟩], [], [], 0, 0, 0⟩
      ⟨false, 0, some "tok", none, "f"⟩ 5 2 (by decide) (by decide) (by decide),
   active_product_precondition ⟨[⟨5, "Retired", 1000, 10, false⟩], [], [], 0, 0, 0⟩
      ⟨false, 0, some "tok", none, "f"⟩ 6 2 (by decide) (by decide) (by decide)⟩

/-! ## Characterizations of the two success branches of `addToCart` -/

/-- New-line branch of `add_to_cart`: all validations pass and no line for
the product exists, so a line is created with the product's current price
frozen into `unit_price`. -/
lemma addToCart_create (s : Store) (r : Request) (c : Cart) (sk : Option String)
    (p : Product) (q : ℕ)
    (hres : getOrCreateCart s r = ⟨s, c, sk⟩)
    (hfp : s.products.find? (fun x => decide (x.id = p.id ∧ x.is_active = true)) = some p)
    (hq1 : 1 ≤ q) (hq99 : q ≤ 99)
    (hstock : q ≤ p.stock_quantity)
    (hnone : s.items.find? (fun x => decide (x.cartId = c.id ∧ x.productId = p.id)) = none) :
    addToCart s r (some p.id) (.intVal q) =
      ⟨{ s with
         items := s.items ++ [⟨s.nextItemId, c.id, p.id, q, p.price, s.clock⟩],
         nextItemId := s.nextItemId + 1,
         clock := s.clock + 1 },
       .ok ("Added " ++ toString q ++ " x " ++ p.name ++ " to cart.") sk⟩ := by
  have hin : p.in_stock = true := by
    unfold Product.in_stock
    simp only [decide_eq_true_eq]
    omega
  show (if (q : ℤ) < 1 ∨ 99 < (q : ℤ) then _ else _) = _
  rw [if_neg (by omega)]
  simp only [hfp]
  rw [if_neg (by rw [hin]; simp), if_neg (by omega)]
  simp only [hres, hnone, Int.toNat_natCast, savePrice_mk]

/-- Merge branch of `add_to_cart`: a line for the product already exists,
the combined quantity passes the cap and stock re-checks, and the line is
re-saved with the summed quantity. -/
lemma addToCart_merge (s : Store) (r : Request) (c : Cart) (sk : Option String)
    (p : Product) (q : ℕ) (it : CartItem)
    (hres : getOrCreateCart s r = ⟨s, c, sk⟩)
    (hfp : s.products.find? (fun x => decide (x.id = p.id ∧ x.is_active = true)) = some p)
    (hq1 : 1 ≤ q) (hq99 : q ≤ 99)
    (hstock1 : q ≤ p.stock_quantity)
    (hfind : s.items.find? (fun x => decide (x.cartId = c.id ∧ x.productId = p.id)) = some it)
    (hcap : it.quantity + q ≤ 99)
    (hstock2 : it.quantity + q ≤ p.stock_quantity) :
    addToCart s r (some p.id) (.intVal q) =
      ⟨{ s with
         items := s.items.map (fun x =>
           if x.id = it.id then CartItem.savePrice { it with quantity := it.quantity + q } p.price
           else x) },
       .ok ("Added " ++ toString q ++ " x " ++ p.name ++ " to cart.") sk⟩ := by
  have hin : p.in_stock = true := by
    unfold Product.in_stock
    simp only [decide_eq_true_eq]
    omega
  show (if (q : ℤ) < 1 ∨ 99 < (q : ℤ) then _ else _) = _
  rw [if_neg (by omega)]
  simp only [hfp]
  rw [if_neg (by rw [hin]; simp), if_neg (by omega)]
  simp only [hres, hfind, Int.toNat_natCast]
  rw [if_neg (by omega), if_neg (by omega)]

/-- With unique product ids, looking an active member up by id finds it. -/
lemma find?_products_of_mem {s : Store} {p : Product}
    (hnd : (s.products.map Product.id).Nodup)
    (hp : p ∈ s.products) (hact : p.is_active = true) :
    s.products.find? (fun x => decide (x.id = p.id ∧ x.is_active = true)) = some p := by
  apply find?_eq_some_of_unique hp
  · simp [hact]
  · intro b hb hpb
    simp only [decide_eq_true_eq] at hpb
    exact List.inj_on_of_nodup_map hnd hb hp hpb.1

/-! ## Claim C1 — the merge law -/

/-- C1: starting from a well-formed store whose resolved cart has no line
for product p, adding quantities q1 and then q2 (both at least 1, summing to
at most 99, with stock covering the sum) leaves EXACTLY one cart item row
for (cart, p), and its quantity is q1 + q2. -/
theorem add_item_merge_law (s : Store) (r : Request) (c : Cart) (sk : Option String)
    (p : Product) (q1 q2 : ℕ)
    (hwf : Store.WF s)
    (hres : getOrCreateCart s r = ⟨s, c, sk⟩)
    (hp : p ∈ s.products) (hact : p.is_active = true)
    (hq1 : 1 ≤ q1) (hq2 : 1 ≤ q2) (hq : q1 + q2 ≤ 99)
    (hstock : q1 + q2 ≤ p.stock_quantity)
    (hnone : ∀ x ∈ s.items, ¬(x.cartId = c.id ∧ x.productId = p.id)) :
    (itemsFor (addToCart (addToCart s r (some p.id) (.intVal q1)).store r
        (some p.id) (.intVal q2)).store c.id p.id).map CartItem.quantity = [q1 + q2] := by
  have hfp : s.products.find? (fun x => decide (x.id = p.id ∧ x.is_active = true)) = some p :=
    find?_products_of_mem hwf.productIdsNodup hp hact
  have hfind0 : s.items.find? (fun x => decide (x.cartId = c.id ∧ x.productId = p.id)) = none := by
    rw [List.find?_eq_none]
    intro x hx
    simpa using hnone x hx
  have e1 := addToCart_create s r c sk p q1 hres hfp hq1 (by omega) (by omega) hfind0
  rw [e1]
  have hres1 : getOrCreateCart
      { s with
        items := s.items ++ [⟨s.nextItemId, c.id, p.id, q1, p.price, s.clock⟩],
        nextItemId := s.nextItemId + 1,
        clock := s.clock + 1 } r =
      ⟨{ s with
         items := s.items ++ [⟨s.nextItemId, c.id, p.id, q1, p.price, s.clock⟩],
         nextItemId := s.nextItemId + 1,
         clock := s.clock + 1 }, c, sk⟩ :=
    getOrCreateCart_congr (s := s) rfl hres
  have hone : List.find? (fun x => decide (x.cartId = c.id ∧ x.productId = p.id))
      [(⟨s.nextItemId, c.id, p.id, q1, p.price, s.clock⟩ : CartItem)] =
      some ⟨s.nextItemId, c.id, p.id, q1, p.price, s.clock⟩ := by
    simp [List.find?]
  have hfind1 : (s.items ++ [(⟨s.nextItemId, c.id, p.id, q1, p.price, s.clock⟩ : CartItem)]).find?
      (fun x => decide (x.cartId = c.id ∧ x.productId = p.id)) =
      some ⟨s.nextItemId, c.id, p.id, q1, p.price, s.clock⟩ := by
    rw [List.find?_append, hfind0, hone]
    rfl
  have e2 := addToCart_merge
    { s with
      items := s.items ++ [⟨s.nextItemId, c.id, p.id, q1, p.price, s.clock⟩],
      nextItemId := s.nextItemId + 1,
      clock := s.clock + 1 } r c sk p q2
    ⟨s.nextItemId, c.id, p.id, q1, p.price, s.clock⟩
    hres1 hfp hq2 (by omega) (by omega) hfind1
    (by show q1 + q2 ≤ 99; omega) (by show q1 + q2 ≤ p.stock_quantity; omega)
  rw [e2]
  have h1 : s.items.map (fun x =>
      if x.id = (⟨s.nextItemId, c.id, p.id, q1, p.price, s.clock⟩ : CartItem).id then
        CartItem.savePrice
          { (⟨s.nextItemId, c.id, p.id, q1, p.price, s.clock⟩ : CartItem) with
            quantity :=
              (⟨s.nextItemId, c.id, p.id, q1, p.price, s.clock⟩ : CartItem).quantity + q2 }
          p.price
      else x) = s.items := by
    calc s.items.map _ = s.items.map id := by
          apply List.map_congr_left
          intro x hx
          have hlt := hwf.itemIdsBound x hx
          have hne2 : ¬ x.id = (⟨s.nextItemId, c.id, p.id, q1, p.price, s.clock⟩ : CartItem).id := by
            show ¬ x.id = s.nextItemId
            omega
          rw [if_neg hne2]
          rfl
      _ = s.items := List.map_id s.items
  have h2 : [(⟨s.nextItemId, c.id, p.id, q1, p.price, s.clock⟩ : CartItem)].map (fun x =>
      if x.id = (⟨s.nextItemId, c.id, p.id, q1, p.price, s.clock⟩ : CartItem).id then
        CartItem.savePrice
          { (⟨s.nextItemId, c.id, p.id, q1, p.price, s.clock⟩ : CartItem) with
            quantity :=
              (⟨s.nextItemId, c.id, p.id, q1, p.price, s.clock⟩ : CartItem).quantity + q2 }
          p.price
      else x) = [⟨s.nextItemId, c.id, p.id, q1 + q2, p.price, s.clock⟩] := by
    simp [CartItem.savePrice]
  simp only [itemsFor, List.map_append, h1, h2, List.filter_append]
  have hfilt0 : s.items.filter
      (fun x => decide (x.cartId = c.id ∧ x.productId = p.id)) = [] := by
    rw [List.filter_eq_nil_iff]
    intro x hx
    simpa using hnone x hx
  rw [hfilt0]
  simp

/-- C1, witness: guest cart 0, product 1 with stock 10; adding 2 then 3
yields the single row of quantity 5. -/
theorem add_item_merge_law_witness :
    (itemsFor (addToCart
        (addToCart ⟨[⟨1, "Slab", 2999, 10, true⟩], [⟨0, none, some "tok"⟩], [], 1, 0, 0⟩
          ⟨false, 0, some "tok", none, "f"⟩ (some 1) (.intVal 2)).store
        ⟨false, 0, some "tok", none, "f"⟩ (some 1) (.intVal 3)).store 0 1).map
      CartItem.quantity = [2 + 3] :=
  add_item_merge_law ⟨[⟨1, "Slab", 2999, 10, true⟩], [⟨0, none, some "tok"⟩], [], 1, 0, 0⟩
    ⟨false, 0, some "tok", none, "f"⟩ ⟨0, none, some "tok"⟩ (some "tok")
    ⟨1, "Slab", 2999, 10, true⟩ 2 3
    ⟨by decide, by decide, by decide, by decide⟩ (by decide) (by decide) (by decide)
    (by decide) (by decide) (by decide) (by decide) (by decide)

/-- A line whose frozen price is nonzero is not rewritten by `save`. -/
lemma savePrice_of_ne {it : CartItem} (pp : ℕ) (h : it.unit_price ≠ 0) :
    CartItem.savePrice it pp = it := by
  unfold CartItem.savePrice
  rw [if_neg h]

/-! ## Claim C2 — the unit-price freeze -/

/-- C2: a line created by `add_to_cart` freezes the product's catalog price
of that instant into `unit_price`; a later catalog price change touches no
cart item; any later merge-add of the same product and any later quantity
update leave every line's `unit_price` at its frozen value `u`.  The
hypothesis `u ≠ 0` reflects the catalog validator
`MinValueValidator(Decimal("0.01"))` on `Product.price`: prices (and hence
frozen prices) are at least one cent, so the `if not self.unit_price`
re-copy branch of `CartItem.save` never fires after creation. -/
theorem unit_price_freeze (s : Store) (r : Request) (c : Cart) (sk : Option String)
    (pid : ℕ) (u : ℕ) (newPrice : ℕ)
    (hres : getOrCreateCart s r = ⟨s, c, sk⟩)
    (hu : u ≠ 0)
    (hall : ∀ j ∈ itemsFor s c.id pid, j.unit_price = u) :
    (∀ p : Product, ∀ q : ℕ,
      s.products.find? (fun x => decide (x.id = p.id ∧ x.is_active = true)) = some p →
      1 ≤ q → q ≤ 99 → q ≤ p.stock_quantity →
      s.items.find? (fun x => decide (x.cartId = c.id ∧ x.productId = p.id)) = none →
      (itemsFor (addToCart s r (some p.id) (.intVal q)).store c.id p.id).map
        CartItem.unit_price = [p.price]) ∧
    (setProductPrice s pid newPrice).items = s.items ∧
    (itemsFor s c.id pid ≠ [] →
      ∀ rq : RawQty, ∀ j ∈ itemsFor (addToCart s r (some pid) rq).store c.id pid,
        j.unit_price = u) ∧
    (∀ itemId : ℕ, ∀ rq : Option RawQty,
      ∀ j ∈ itemsFor (updateCartItem s r itemId rq).store c.id pid, j.unit_price = u) := by
  refine ⟨?_, rfl, ?_, ?_⟩
  · -- (a) creation freeze
    intro p q hfp hq1 hq99 hstock hnone
    rw [addToCart_create s r c sk p q hres hfp hq1 hq99 hstock hnone]
    simp only [itemsFor, List.filter_append]
    have h0 : s.items.filter (fun x => decide (x.cartId = c.id ∧ x.productId = p.id)) = [] := by
      rw [List.filter_eq_nil_iff]
      intro x hx
      exact List.find?_eq_none.mp hnone x hx
    rw [h0]
    simp
  · -- (c) merge-add keeps the frozen price
    intro hne rq j hj
    cases rq with
    | malformed => exact hall j hj
    | intVal z =>
      by_cases hz : z < 1 ∨ 99 < z
      · have he : addToCart s r (some pid) (.intVal z) =
            ⟨s, .err "Quantity must be between 1 and 99." 400⟩ := by
          show (if z < 1 ∨ 99 < z then _ else _) = _
          rw [if_pos hz]
        rw [he] at hj
        exact hall j hj
      · cases hfp : s.products.find? (fun x => decide (x.id = pid ∧ x.is_active = true)) with
        | none =>
          have he : addToCart s r (some pid) (.intVal z) =
              ⟨s, .err "Product not found." 404⟩ := by
            show (if z < 1 ∨ 99 < z then _ else _) = _
            rw [if_neg hz]
            simp only [hfp]
          rw [he] at hj
          exact hall j hj
        | some product =>
          have hpid : product.id = pid := by
            have h := List.find?_some hfp
            simp only [decide_eq_true_eq] at h
            exact h.1
          by_cases hin : product.in_stock = false
          · have he : addToCart s r (some pid) (.intVal z) =
                ⟨s, .err "Product is out of stock." 400⟩ := by
              show (if z < 1 ∨ 99 < z then _ else _) = _
              rw [if_neg hz]
              simp only [hfp]
              rw [if_pos hin]
            rw [he] at hj
            exact hall j hj
          · by_cases hst : (product.stock_quantity : ℤ) < z
            · have he : addToCart s r (some pid) (.intVal z) =
                  ⟨s, .err ("Only " ++ toString product.stock_quantity ++
                    " items available in stock.") 400⟩ := by
                show (if z < 1 ∨ 99 < z then _ else _) = _
                rw [if_neg hz]
                simp only [hfp]
                rw [if_neg hin, if_pos hst]
              rw [he] at hj
              exact hall j hj
            · cases hfind : s.items.find?
                  (fun x => decide (x.cartId = c.id ∧ x.productId = product.id)) with
              | none =>
                exfalso
                apply hne
                unfold itemsFor
                rw [List.filter_eq_nil_iff]
                intro x hx
                have h1 := List.find?_eq_none.mp hfind x hx
                simp only [decide_eq_true_eq] at h1 ⊢
                rw [← hpid]
                exact h1
              | some item =>
                have hitem : item ∈ s.items := List.mem_of_find?_eq_some hfind
                have hkey := List.find?_some hfind
                simp only [decide_eq_true_eq] at hkey
                have hiu : item.unit_price = u := by
                  apply hall
                  unfold itemsFor
                  rw [List.mem_filter]
                  exact ⟨hitem, by simp [hkey.1, hkey.2, hpid]⟩
                by_cases hcap : 99 < item.quantity + z.toNat
                · have he : addToCart s r (some pid) (.intVal z) =
                      ⟨s, .err "Maximum quantity per product is 99." 400⟩ := by
                    show (if z < 1 ∨ 99 < z then _ else _) = _
                    rw [if_neg hz]
                    simp only [hfp]
                    rw [if_neg hin, if_neg hst]
                    simp only [hres, hfind]
                    rw [if_pos hcap]
                  rw [he] at hj
                  exact hall j hj
                · by_cases hst2 : product.stock_quantity < item.quantity + z.toNat
                  · have he : addToCart s r (some pid) (.intVal z) =
                        ⟨s, .err ("Only " ++ toString product.stock_quantity ++
                          " items available in stock.") 400⟩ := by
                      show (if z < 1 ∨ 99 < z then _ else _) = _
                      rw [if_neg hz]
                      simp only [hfp]
                      rw [if_neg hin, if_neg hst]
                      simp only [hres, hfind]
                      rw [if_neg hcap, if_pos hst2]
                    rw [he] at hj
                    exact hall j hj
                  · have he : addToCart s r (some pid) (.intVal z) =
                        ⟨{ s with items := s.items.map (fun x =>
                            if x.id = item.id then
                              CartItem.savePrice
                                { item with quantity := item.quantity + z.toNat } product.price
                            else x) },
                         .ok ("Added " ++ toString z.toNat ++ " x " ++ product.name ++
                           " to cart.") sk⟩ := by
                      show (if z < 1 ∨ 99 < z then _ else _) = _
                      rw [if_neg hz]
                      simp only [hfp]
                      rw [if_neg hin, if_neg hst]
                      simp only [hres, hfind]
                      rw [if_neg hcap, if_neg hst2]
                    rw [he] at hj
                    unfold itemsFor at hj
                    rw [List.mem_filter] at hj
                    obtain ⟨hjm, hjp⟩ := hj
                    rw [List.mem_map] at hjm
                    obtain ⟨x, hx, hfx⟩ := hjm
                    by_cases hxid : x.id = item.id
                    · rw [if_pos hxid] at hfx
                      rw [← hfx]
                      rw [savePrice_of_ne product.price
                        (show ({ item with quantity := item.quantity + z.toNat } :
                            CartItem).unit_price ≠ 0 by
                          show item.unit_price ≠ 0
                          rw [hiu]
                          exact hu)]
                      exact hiu
                    · rw [if_neg hxid] at hfx
                      rw [← hfx]
                      apply hall
                      unfold itemsFor
                      rw [List.mem_filter]
                      refine ⟨hx, ?_⟩
                      rw [hfx]
                      exact hjp
  · -- (d) quantity update keeps the frozen price
    intro itemId rq j hj
    match rq with
    | none => exact hall j hj
    | some .malformed => exact hall j hj
    | some (.intVal z) =>
      by_cases hz : z < 1 ∨ 99 < z
      · have he : updateCartItem s r itemId (some (.intVal z)) =
            ⟨s, .err "Quantity must be between 1 and 99." 400⟩ := by
          show (if z < 1 ∨ 99 < z then _ else _) = _
          rw [if_pos hz]
        rw [he] at hj
        exact hall j hj
      · cases hfind : s.items.find?
            (fun x => decide (x.id = itemId ∧ x.cartId = c.id)) with
        | none =>
          have he : updateCartItem s r itemId (some (.intVal z)) =
              ⟨s, .err "Cart item not found." 404⟩ := by
            show (if z < 1 ∨ 99 < z then _ else _) = _
            rw [if_neg hz]
            simp only [hres, hfind]
          rw [he] at hj
          exact hall j hj
        | some item =>
          have hitem : item ∈ s.items := List.mem_of_find?_eq_some hfind
          have hkey := List.find?_some hfind
          simp only [decide_eq_true_eq] at hkey
          cases hfp : s.products.find? (fun x => decide (x.id = item.productId)) with
          | none =>
            have he : updateCartItem s r itemId (some (.intVal z)) =
                ⟨s, .err "Error updating cart item." 500⟩ := by
              show (if z < 1 ∨ 99 < z then _ else _) = _
              rw [if_neg hz]
              simp only [hres, hfind, hfp]
            rw [he] at hj
            exact hall j hj
          | some product =>
            by_cases hst : (product.stock_quantity : ℤ) < z
            · have he : updateCartItem s r itemId (some (.intVal z)) =
                  ⟨s, .err ("Only " ++ toString product.stock_quantity ++
                    " items available in stock.") 400⟩ := by
                show (if z < 1 ∨ 99 < z then _ else _) = _
                rw [if_neg hz]
                simp only [hres, hfind, hfp]
                rw [if_pos hst]
              rw [he] at hj
              exact hall j hj
            · have he : updateCartItem s r itemId (some (.intVal z)) =
                  ⟨{ s with items := s.items.map (fun x =>
                      if x.id = item.id then
                        CartItem.savePrice { item with quantity := z.toNat } product.price
                      else x) },
                   .ok "Cart item updated successfully." sk⟩ := by
                show (if z < 1 ∨ 99 < z then _ else _) = _
                rw [if_neg hz]
                simp only [hres, hfind, hfp]
                rw [if_neg hst]
              rw [he] at hj
              unfold itemsFor at hj
              rw [List.mem_filter] at hj
              obtain ⟨hjm, hjp⟩ := hj
              rw [List.mem_map] at hjm
              obtain ⟨x, hx, hfx⟩ := hjm
              by_cases hxid : x.id = item.id
              · rw [if_pos hxid] at hfx
                have hjpid : j.productId = item.productId := by
                  rw [← hfx]
                  unfold CartItem.savePrice
                  split <;> rfl
                have hipid : item.productId = pid := by
                  rw [← hjpid]
                  simpa using (decide_eq_true_eq.mp hjp).2
                have hiu : item.unit_price = u := by
                  apply hall
                  unfold itemsFor
                  rw [List.mem_filter]
                  exact ⟨hitem, by simp [hkey.2, hipid]⟩
                rw [← hfx]
                rw [savePrice_of_ne product.price
                  (show ({ item with quantity := z.toNat } : CartItem).unit_price ≠ 0 by
                    show item.unit_price ≠ 0
                    rw [hiu]
                    exact hu)]
                exact hiu
              · rw [if_neg hxid] at hfx
                rw [← hfx]
                apply hall
                unfold itemsFor
                rw [List.mem_filter]
                refine ⟨hx, ?_⟩
                rw [hfx]
                exact hjp

/-- C2, witness: cart 0 holds product 1 frozen at 29.99; every merge-add and
every update on the concrete store keeps that price. -/
theorem unit_price_freeze_witness :
    (∀ rq : RawQty, ∀ j ∈ itemsFor (addToCart
        ⟨[⟨1, "Slab", 2999, 10, true⟩], [⟨0, none, some "tok"⟩],
          [⟨0, 0, 1, 2, 2999, 0⟩], 1, 1, 1⟩
        ⟨false, 0, some "tok", none, "f"⟩ (some 1) rq).store 0 1, j.unit_price = 2999) ∧
    (∀ itemId : ℕ, ∀ rq : Option RawQty, ∀ j ∈ itemsFor (updateCartItem
        ⟨[⟨1, "Slab", 2999, 10, true⟩], [⟨0, none, some "tok"⟩],
          [⟨0, 0, 1, 2, 2999, 0⟩], 1, 1, 1⟩
        ⟨false, 0, some "tok", none, "f"⟩ itemId rq).store 0 1, j.unit_price = 2999) :=
  ⟨(unit_price_freeze
      ⟨[⟨1, "Slab", 2999, 10, true⟩], [⟨0, none, some "tok"⟩], [⟨0, 0, 1, 2, 2999, 0⟩], 1, 1, 1⟩
      ⟨false, 0, some "tok", none, "f"⟩ ⟨0, none, some "tok"⟩ (some "tok") 1 2999 999
      (by decide) (by decide) (by decide)).2.2.1 (by decide),
   (unit_price_freeze
      ⟨[⟨1, "Slab", 2999, 10, true⟩], [⟨0, none, some "tok"⟩], [⟨0, 0, 1, 2, 2999, 0⟩], 1, 1, 1⟩
      ⟨false, 0, some "tok", none, "f"⟩ ⟨0, none, some "tok"⟩ (some "tok") 1 2999 999
      (by decide) (by decide) (by decide)).2.2.2⟩

/-! ## Claim C7 — stock ceiling on add -/

/-- C7, counterexample: the claim predicts the available-count message
whenever live stock is below the requested quantity, but for a product with
stock 0 the earlier out-of-stock check fires with a different message that
contains no count at all. -/
theorem stock_ceiling_zero_refuted :
    addToCart ⟨[⟨4, "Empty", 1000, 0, true⟩], [], [], 0, 0, 0⟩
        ⟨false, 0, some "tok", none, "f"⟩ (some 4) (.intVal 1) =
      ⟨⟨[⟨4, "Empty", 1000, 0, true⟩], [], [], 0, 0, 0⟩, .err "Product is out of stock." 400⟩ ∧
    "Product is out of stock." ≠ "Only 0 items available in stock." := by
  decide

/-- C7 (amended): for an IN-STOCK product (stock at least 1), a new-line add
whose quantity exceeds live stock fails with "Only N items available in
stock." where N is the live stock; on the merge path the 99 cap and the
stock bound are re-checked against the COMBINED quantity: a combined
quantity over 99 fails with the cap message, and a combined quantity within
the cap but over stock fails with the available-count message.  (A stock of
0 instead fails the earlier out-of-stock check, and a combined quantity
failing both checks reports the cap first.) -/
theorem stock_ceiling_add (s : Store) (r : Request) (c : Cart) (sk : Option String)
    (p : Product) (q : ℕ) (it : CartItem)
    (hres : getOrCreateCart s r = ⟨s, c, sk⟩)
    (hfp : s.products.find? (fun x => decide (x.id = p.id ∧ x.is_active = true)) = some p)
    (hq1 : 1 ≤ q) (hq99 : q ≤ 99) :
    (1 ≤ p.stock_quantity → p.stock_quantity < q →
      addToCart s r (some p.id) (.intVal q) =
        ⟨s, .err ("Only " ++ toString p.stock_quantity ++ " items available in stock.") 400⟩) ∧
    (s.items.find? (fun x => decide (x.cartId = c.id ∧ x.productId = p.id)) = some it →
      q ≤ p.stock_quantity →
      ((99 < it.quantity + q →
        addToCart s r (some p.id) (.intVal q) =
          ⟨s, .err "Maximum quantity per product is 99." 400⟩) ∧
       (it.quantity + q ≤ 99 → p.stock_quantity < it.quantity + q →
        addToCart s r (some p.id) (.intVal q) =
          ⟨s, .err ("Only " ++ toString p.stock_quantity ++
            " items available in stock.") 400⟩))) := by
  constructor
  · intro hpos hlt
    have hin : p.in_stock = true := by
      unfold Product.in_stock
      simp only [decide_eq_true_eq]
      omega
    show (if (q : ℤ) < 1 ∨ 99 < (q : ℤ) then _ else _) = _
    rw [if_neg (by omega)]
    simp only [hfp]
    rw [if_neg (by rw [hin]; simp), if_pos (by omega : (p.stock_quantity : ℤ) < (q : ℤ))]
  · intro hfind hstock1
    have hin : p.in_stock = true := by
      unfold Product.in_stock
      simp only [decide_eq_true_eq]
      omega
    constructor
    · intro hcap
      show (if (q : ℤ) < 1 ∨ 99 < (q : ℤ) then _ else _) = _
      rw [if_neg (by omega)]
      simp only [hfp]
      rw [if_neg (by rw [hin]; simp), if_neg (by omega)]
      simp only [hres, hfind, Int.toNat_natCast]
      rw [if_pos hcap]
    · intro hcap hst2
      show (if (q : ℤ) < 1 ∨ 99 < (q : ℤ) then _ else _) = _
      rw [if_neg (by omega)]
      simp only [hfp]
      rw [if_neg (by rw [hin]; simp), if_neg (by omega)]
      simp only [hres, hfind, Int.toNat_natCast]
      rw [if_neg (by omega), if_pos hst2]

/-- C7, witness: stock 5, existing quantity 3, adding 3 more: the combined
quantity 6 passes the cap but exceeds stock, so the add reports
"Only 5 items available in stock.". -/
theorem stock_ceiling_add_witness :
    (1 ≤ (5 : ℕ) → (5 : ℕ) < 3 →
      addToCart ⟨[⟨1, "Slab", 2999, 5, true⟩], [⟨0, none, some "tok"⟩],
          [⟨0, 0, 1, 3, 2999, 0⟩], 1, 1, 1⟩ ⟨false, 0, some "tok", none, "f"⟩
          (some 1) (.intVal 3) =
        ⟨⟨[⟨1, "Slab", 2999, 5, true⟩], [⟨0, none, some "tok"⟩],
          [⟨0, 0, 1, 3, 2999, 0⟩], 1, 1, 1⟩,
         .err ("Only " ++ toString (5 : ℕ) ++ " items available in stock.") 400⟩) ∧
    (List.find? (fun x => decide (x.cartId = 0 ∧ x.productId = 1))
        [(⟨0, 0, 1, 3, 2999, 0⟩ : CartItem)] = some ⟨0, 0, 1, 3, 2999, 0⟩ →
      3 ≤ (5 : ℕ) →
      ((99 < 3 + 3 →
        addToCart ⟨[⟨1, "Slab", 2999, 5, true⟩], [⟨0, none, some "tok"⟩],
            [⟨0, 0, 1, 3, 2999, 0⟩], 1, 1, 1⟩ ⟨false, 0, some "tok", none, "f"⟩
            (some 1) (.intVal 3) =
          ⟨⟨[⟨1, "Slab", 2999, 5, true⟩], [⟨0, none, some "tok"⟩],
            [⟨0, 0, 1, 3, 2999, 0⟩], 1, 1, 1⟩,
           .err "Maximum quantity per product is 99." 400⟩) ∧
       (3 + 3 ≤ 99 → (5 : ℕ) < 3 + 3 →
        addToCart ⟨[⟨1, "Slab", 2999, 5, true⟩], [⟨0, none, some "tok"⟩],
            [⟨0, 0, 1, 3, 2999, 0⟩], 1, 1, 1⟩ ⟨false, 0, some "tok", none, "f"⟩
            (some 1) (.intVal 3) =
          ⟨⟨[⟨1, "Slab", 2999, 5, true⟩], [⟨0, none, some "tok"⟩],
            [⟨0, 0, 1, 3, 2999, 0⟩], 1, 1, 1⟩,
           .err ("Only " ++ toString (5 : ℕ) ++ " items available in stock.") 400⟩))) :=
  stock_ceiling_add
    ⟨[⟨1, "Slab", 2999, 5, true⟩], [⟨0, none, some "tok"⟩], [⟨0, 0, 1, 3, 2999, 0⟩], 1, 1, 1⟩
    ⟨false, 0, some "tok", none, "f"⟩ ⟨0, none, some "tok"⟩ (some "tok")
    ⟨1, "Slab", 2999, 5, true⟩ 3 ⟨0, 0, 1, 3, 2999, 0⟩
    (by decide) (by decide) (by decide) (by decide)

/-! ## Claim C8 — update-path checks -/

/-- C8, counterexample: the claim says an update against a product with
stock 0 is "rejected as out of stock", but the update path has no separate
out-of-stock check: it is rejected by the single stock comparison with the
message "Only 0 items available in stock.", not "Product is out of
stock.". -/
theorem update_zero_stock_refuted :
    updateCartItem ⟨[⟨4, "Empty", 1000, 0, true⟩], [⟨0, none, some "tok"⟩],
        [⟨0, 0, 4, 2, 1000, 0⟩], 1, 1, 1⟩ ⟨false, 0, some "tok", none, "f"⟩ 0
        (some (.intVal 1)) =
      ⟨⟨[⟨4, "Empty", 1000, 0, true⟩], [⟨0, none, some "tok"⟩],
        [⟨0, 0, 4, 2, 1000, 0⟩], 1, 1, 1⟩, .err "Only 0 items available in stock." 400⟩ ∧
    "Only 0 items available in stock." ≠ "Product is out of stock." := by
  decide

/-- C8 (amended): `update_cart_item` rejects a missing quantity, a
non-integer quantity, and any quantity outside [1, 99]; a quantity above the
item's product's live stock is rejected with the available count (this
single check also covers stock 0, which the update path does NOT report as
"out of stock"); on success the line's quantity is SET to q directly — no
merge with the previous quantity — and the store changes only in that
line. -/
theorem update_path_checks (s : Store) (r : Request) (c : Cart) (sk : Option String)
    (itemId : ℕ) (it : CartItem) (p : Product) (q : ℕ)
    (hres : getOrCreateCart s r = ⟨s, c, sk⟩)
    (hfind : s.items.find? (fun x => decide (x.id = itemId ∧ x.cartId = c.id)) = some it)
    (hfp : s.products.find? (fun x => decide (x.id = it.productId)) = some p)
    (hq1 : 1 ≤ q) (hq99 : q ≤ 99) (hu : it.unit_price ≠ 0) :
    updateCartItem s r itemId none = ⟨s, .err "Quantity is required." 400⟩ ∧
    updateCartItem s r itemId (some .malformed) = ⟨s, .err "Invalid quantity value." 400⟩ ∧
    (∀ z : ℤ, z < 1 ∨ 99 < z →
      updateCartItem s r itemId (some (.intVal z)) =
        ⟨s, .err "Quantity must be between 1 and 99." 400⟩) ∧
    (p.stock_quantity < q →
      updateCartItem s r itemId (some (.intVal q)) =
        ⟨s, .err ("Only " ++ toString p.stock_quantity ++ " items available in stock.") 400⟩) ∧
    (q ≤ p.stock_quantity →
      updateCartItem s r itemId (some (.intVal q)) =
        ⟨{ s with items := s.items.map (fun x =>
            if x.id = it.id then { it with quantity := q } else x) },
         .ok "Cart item updated successfully." sk⟩) := by
  refine ⟨rfl, rfl, ?_, ?_, ?_⟩
  · intro z hz
    show (if z < 1 ∨ 99 < z then _ else _) = _
    rw [if_pos hz]
  · intro hlt
    show (if (q : ℤ) < 1 ∨ 99 < (q : ℤ) then _ else _) = _
    rw [if_neg (by omega)]
    simp only [hres, hfind, hfp]
    rw [if_pos (by omega : (p.stock_quantity : ℤ) < (q : ℤ))]
  · intro hle
    show (if (q : ℤ) < 1 ∨ 99 < (q : ℤ) then _ else _) = _
    rw [if_neg (by omega)]
    simp only [hres, hfind, hfp]
    rw [if_neg (by omega), savePrice_of_ne p.price
      (show ({ it with quantity := (q : ℤ).toNat } : CartItem).unit_price ≠ 0 from hu)]
    simp only [Int.toNat_natCast]

/-- C8, witness: item 0 (quantity 2) of cart 0, product stock 5; updating to
3 sets the quantity to 3 directly, and the boundary rejections hold. -/
theorem update_path_checks_witness :
    updateCartItem ⟨[⟨1, "Slab", 2999, 5, true⟩], [⟨0, none, some "tok"⟩],
        [⟨0, 0, 1, 2, 2999, 0⟩], 1, 1, 1⟩ ⟨false, 0, some "tok", none, "f"⟩ 0 none =
      ⟨⟨[⟨1, "Slab", 2999, 5, true⟩], [⟨0, none, some "tok"⟩],
        [⟨0, 0, 1, 2, 2999, 0⟩], 1, 1, 1⟩, .err "Quantity is required." 400⟩ ∧
    updateCartItem ⟨[⟨1, "Slab", 2999, 5, true⟩], [⟨0, none, some "tok"⟩],
        [⟨0, 0, 1, 2, 2999, 0⟩], 1, 1, 1⟩ ⟨false, 0, some "tok", none, "f"⟩ 0
        (some .malformed) =
      ⟨⟨[⟨1, "Slab", 2999, 5, true⟩], [⟨0, none, some "tok"⟩],
        [⟨0, 0, 1, 2, 2999, 0⟩], 1, 1, 1⟩, .err "Invalid quantity value." 400⟩ ∧
    (∀ z : ℤ, z < 1 ∨ 99 < z →
      updateCartItem ⟨[⟨1, "Slab", 2999, 5, true⟩], [⟨0, none, some "tok"⟩],
          [⟨0, 0, 1, 2, 2999, 0⟩], 1, 1, 1⟩ ⟨false, 0, some "tok", none, "f"⟩ 0
          (some (.intVal z)) =
        ⟨⟨[⟨1, "Slab", 2999, 5, true⟩], [⟨0, none, some "tok"⟩],
          [⟨0, 0, 1, 2, 2999, 0⟩], 1, 1, 1⟩, .err "Quantity must be between 1 and 99." 400⟩) ∧
    ((5 : ℕ) < 3 →
      updateCartItem ⟨[⟨1, "Slab", 2999, 5, true⟩], [⟨0, none, some "tok"⟩],
          [⟨0, 0, 1, 2, 2999, 0⟩], 1, 1, 1⟩ ⟨false, 0, some "tok", none, "f"⟩ 0
          (some (.intVal 3)) =
        ⟨⟨[⟨1, "Slab", 2999, 5, true⟩], [⟨0, none, some "tok"⟩],
          [⟨0, 0, 1, 2, 2999, 0⟩], 1, 1, 1⟩,
         .err ("Only " ++ toString (5 : ℕ) ++ " items available in stock.") 400⟩) ∧
    (3 ≤ (5 : ℕ) →
      updateCartItem ⟨[⟨1, "Slab", 2999, 5, true⟩], [⟨0, none, some "tok"⟩],
          [⟨0, 0, 1, 2, 2999, 0⟩], 1, 1, 1⟩ ⟨false, 0, some "tok", none, "f"⟩ 0
          (some (.intVal 3)) =
        ⟨⟨[⟨1, "Slab", 2999, 5, true⟩], [⟨0, none, some "tok"⟩],
          [(⟨0, 0, 1, 2, 2999, 0⟩ : CartItem)].map (fun x =>
            if x.id = (⟨0, 0, 1, 2, 2999, 0⟩ : CartItem).id then
              { (⟨0, 0, 1, 2, 2999, 0⟩ : CartItem) with quantity := 3 } else x), 1, 1, 1⟩,
         .ok "Cart item updated successfully." (some "tok")⟩) :=
  update_path_checks
    ⟨[⟨1, "Slab", 2999, 5, true⟩], [⟨0, none, some "tok"⟩], [⟨0, 0, 1, 2, 2999, 0⟩], 1, 1, 1⟩
    ⟨false, 0, some "tok", none, "f"⟩ ⟨0, none, some "tok"⟩ (some "tok") 0
    ⟨0, 0, 1, 2, 2999, 0⟩ ⟨1, "Slab", 2999, 5, true⟩ 3
    (by decide) (by decide) (by decide) (by decide) (by decide) (by decide)

/-! ## Claim C6 — the cart identity invariant -/

/-- Cart resolution preserves the identity invariant: any cart it creates
has exactly one identity field set and is keyed by an identity no existing
cart holds. -/
lemma cartsInv_getOrCreateCart (s : Store) (r : Request) (h : cartsInv s.carts) :
    cartsInv (getOrCreateCart s r).store.carts := by
  obtain ⟨hident, huser, hguest⟩ := h
  unfold getOrCreateCart
  by_cases ha : r.is_authenticated = true
  · rw [if_pos ha]
    cases hf : s.carts.find? (fun c => decide (c.user = some r.user_id)) with
    | some c => exact ⟨hident, huser, hguest⟩
    | none =>
      have hnotin : ∀ a ∈ s.carts, a.user ≠ some r.user_id := by
        intro a hamem
        have h1 := List.find?_eq_none.mp hf a hamem
        simpa using h1
      refine ⟨?_, ?_, ?_⟩
      · intro c hc
        rcases List.mem_append.mp hc with h1 | h1
        · exact hident c h1
        · rw [List.mem_singleton.mp h1]
          left
          exact ⟨by simp, rfl⟩
      · show List.Pairwise (fun a b => ∀ u : ℕ, a.user = some u → b.user ≠ some u)
            (s.carts ++ [(⟨s.nextCartId, some r.user_id, none⟩ : Cart)])
        rw [List.pairwise_append]
        refine ⟨huser, List.pairwise_singleton _ _, ?_⟩
        intro a hamem b hbmem
        rw [List.mem_singleton.mp hbmem]
        intro u hau hbu
        have h2 : u = r.user_id := by simpa using hbu.symm
        rw [h2] at hau
        exact hnotin a hamem hau
      · show List.Pairwise (fun a b => a.user = none → b.user = none → a.session_key ≠ b.session_key)
            (s.carts ++ [(⟨s.nextCartId, some r.user_id, none⟩ : Cart)])
        rw [List.pairwise_append]
        refine ⟨hguest, List.pairwise_singleton _ _, ?_⟩
        intro a hamem b hbmem
        rw [List.mem_singleton.mp hbmem]
        intro hau hbu
        simp at hbu
  · rw [if_neg ha]
    cases hf : s.carts.find?
        (fun c => decide (c.session_key = some (resolveGuestKey r) ∧ c.user = none)) with
    | some c => exact ⟨hident, huser, hguest⟩
    | none =>
      have hnotin : ∀ a ∈ s.carts,
          ¬(a.session_key = some (resolveGuestKey r) ∧ a.user = none) := by
        intro a hamem
        have h1 := List.find?_eq_none.mp hf a hamem
        simpa using h1
      refine ⟨?_, ?_, ?_⟩
      · intro c hc
        rcases List.mem_append.mp hc with h1 | h1
        · exact hident c h1
        · rw [List.mem_singleton.mp h1]
          right
          exact ⟨rfl, by simp⟩
      · show List.Pairwise (fun a b => ∀ u : ℕ, a.user = some u → b.user ≠ some u)
            (s.carts ++ [(⟨s.nextCartId, none, some (resolveGuestKey r)⟩ : Cart)])
        rw [List.pairwise_append]
        refine ⟨huser, List.pairwise_singleton _ _, ?_⟩
        intro a hamem b hbmem
        rw [List.mem_singleton.mp hbmem]
        intro u hau hbu
        simp at hbu
      · show List.Pairwise (fun a b => a.user = none → b.user = none → a.session_key ≠ b.session_key)
            (s.carts ++ [(⟨s.nextCartId, none, some (resolveGuestKey r)⟩ : Cart)])
        rw [List.pairwise_append]
        refine ⟨hguest, List.pairwise_singleton _ _, ?_⟩
        intro a hamem b hbmem
        rw [List.mem_singleton.mp hbmem]
        intro hau hbu hsk
        exact hnotin a hamem ⟨hsk, hau⟩

/-- `add_to_cart` touches the cart table only through resolution. -/
lemma addToCart_carts (s : Store) (r : Request) (pid : Option ℕ) (rq : RawQty) :
    (addToCart s r pid rq).store.carts = s.carts ∨
    (addToCart s r pid rq).store.carts = (getOrCreateCart s r).store.carts := by
  cases pid with
  | none => exact Or.inl rfl
  | some pd =>
    cases rq with
    | malformed => exact Or.inl rfl
    | intVal z =>
      simp only [addToCart]
      split
      · exact Or.inl rfl
      · split
        · exact Or.inl rfl
        · split
          · exact Or.inl rfl
          · split
            · exact Or.inl rfl
            · split
              · split
                · exact Or.inr rfl
                · split
                  · exact Or.inr rfl
                  · exact Or.inr rfl
              · exact Or.inr rfl

/-- `update_cart_item` touches the cart table only through resolution. -/
lemma updateCartItem_carts (s : Store) (r : Request) (itemId : ℕ) (rq : Option RawQty) :
    (updateCartItem s r itemId rq).store.carts = s.carts ∨
    (updateCartItem s r itemId rq).store.carts = (getOrCreateCart s r).store.carts := by
  match rq with
  | none => exact Or.inl rfl
  | some .malformed => exact Or.inl rfl
  | some (.intVal z) =>
    simp only [updateCartItem]
    split
    · exact Or.inl rfl
    · split
      · exact Or.inr rfl
      · split
        · exact Or.inr rfl
        · split
          · exact Or.inr rfl
          · exact Or.inr rfl

/-- `remove_cart_item` touches the cart table only through resolution. -/
lemma removeCartItem_carts (s : Store) (r : Request) (itemId : ℕ) :
    (removeCartItem s r itemId).store.carts = (getOrCreateCart s r).store.carts := by
  simp only [removeCartItem]
  split
  · rfl
  · split
    · rfl
    · rfl

/-- C6: on any store satisfying the cart identity invariant — every cart has
exactly one of owning user / guest session key, at most one cart per user,
at most one ownerless cart per session key — every cart operation preserves
the invariant, and resolving the same identity again returns the very same
cart with the store unchanged. -/
theorem cart_identity_invariant (s : Store) (r : Request) (h : cartsInv s.carts) :
    cartsInv (getOrCreateCart s r).store.carts ∧
    (∀ pid rq, cartsInv (addToCart s r pid rq).store.carts) ∧
    (∀ itemId rq, cartsInv (updateCartItem s r itemId rq).store.carts) ∧
    (∀ itemId, cartsInv (removeCartItem s r itemId).store.carts) ∧
    cartsInv (clearCart s r).store.carts ∧
    cartsInv (getCart s r).store.carts ∧
    getOrCreateCart (getOrCreateCart s r).store r = getOrCreateCart s r := by
  have hg := cartsInv_getOrCreateCart s r h
  refine ⟨hg, ?_, ?_, ?_, hg, hg, getOrCreateCart_stable s r⟩
  · intro pid rq
    rcases addToCart_carts s r pid rq with hc | hc <;> rw [hc]
    · exact h
    · exact hg
  · intro itemId rq
    rcases updateCartItem_carts s r itemId rq with hc | hc <;> rw [hc]
    · exact h
    · exact hg
  · intro itemId
    rw [removeCartItem_carts s r itemId]
    exact hg

/-- C6, witness: a store holding one user cart and one guest cart satisfies
the invariant, and every operation preserves it. -/
theorem cart_identity_invariant_witness :
    cartsInv (getOrCreateCart ⟨[], [⟨0, some 7, none⟩, ⟨1, none, some "g"⟩], [], 2, 0, 0⟩
      ⟨false, 0, some "tok", none, "f"⟩).store.carts ∧
    (∀ pid rq, cartsInv (addToCart ⟨[], [⟨0, some 7, none⟩, ⟨1, none, some "g"⟩], [], 2, 0, 0⟩
      ⟨false, 0, some "tok", none, "f"⟩ pid rq).store.carts) ∧
    (∀ itemId rq, cartsInv (updateCartItem
      ⟨[], [⟨0, some 7, none⟩, ⟨1, none, some "g"⟩], [], 2, 0, 0⟩
      ⟨false, 0, some "tok", none, "f"⟩ itemId rq).store.carts) ∧
    (∀ itemId, cartsInv (removeCartItem
      ⟨[], [⟨0, some 7, none⟩, ⟨1, none, some "g"⟩], [], 2, 0, 0⟩
      ⟨false, 0, some "tok", none, "f"⟩ itemId).store.carts) ∧
    cartsInv (clearCart ⟨[], [⟨0, some 7, none⟩, ⟨1, none, some "g"⟩], [], 2, 0, 0⟩
      ⟨false, 0, some "tok", none, "f"⟩).store.carts ∧
    cartsInv (getCart ⟨[], [⟨0, some 7, none⟩, ⟨1, none, some "g"⟩], [], 2, 0, 0⟩
      ⟨false, 0, some "tok", none, "f"⟩).store.carts ∧
    getOrCreateCart (getOrCreateCart ⟨[], [⟨0, some 7, none⟩, ⟨1, none, some "g"⟩], [], 2, 0, 0⟩
        ⟨false, 0, some "tok", none, "f"⟩).store ⟨false, 0, some "tok", none, "f"⟩ =
      getOrCreateCart ⟨[], [⟨0, some 7, none⟩, ⟨1, none, some "g"⟩], [], 2, 0, 0⟩
        ⟨false, 0, some "tok", none, "f"⟩ :=
  cart_identity_invariant ⟨[], [⟨0, some 7, none⟩, ⟨1, none, some "g"⟩], [], 2, 0, 0⟩
    ⟨false, 0, some "tok", none, "f"⟩
    ⟨by unfold cartsIdentOk; decide,
     by unfold cartsUserUnique; simp,
     by unfold cartsGuestUnique; simp⟩

end Marbelle
